import Mathlib

/-!
Verification development for the VQA backend
(`src/backend/main.py`, `src/backend/api_routes.py`,
`src/backend/azure_integration.py`).

The Python code is shallowly embedded: each handler and service method
becomes a pure Lean function.  Effects are made explicit parameters:
- the SQL store is a state `SQLState` (an `enabled` flag set at
  construction time plus the table contents as an association list);
- whether a `pyodbc.connect` call succeeds on a given operation is a
  Boolean parameter `connOk` (a raised connection error corresponds to
  `connOk = false`, and the embedding follows the source's
  `try/except` around it);
- model inference and the upstream token HTTP call are `Except`-valued
  parameters (an exception raised by the library corresponds to
  `Except.error`).
Python floats for `tts_speed` are modelled as rationals; none of the
claims depend on floating-point rounding.
-/

namespace VQABackend

/-! ## Preference store: `azure_integration.py`, class `AzureSQLService` -/

/-- A `UserPreferences` row, minus the key and timestamps
(`tts_speed FLOAT, announcement_interval INT, priority_mode NVARCHAR`). -/
structure Prefs where
  tts_speed : Rat
  announcement_interval : Int
  priority_mode : String
deriving DecidableEq, Repr

/-- `DEFAULT_PREFS` from `get_user_preferences`:
`{tts_speed: 1.0, announcement_interval: 10, priority_mode: "dynamic"}`. -/
def DEFAULT_PREFS : Prefs :=
  { tts_speed := 1, announcement_interval := 10, priority_mode := "dynamic" }

/-- State of an `AzureSQLService` instance: the `enabled` flag set in
`__init__` (false when the initial connection failed, "offline mode"),
and the `UserPreferences` table as a key-ordered association list
(`user_id` is the primary key, so keys are unique by construction of
`upsert`). -/
structure SQLState where
  enabled : Bool
  db : List (String × Prefs)
deriving DecidableEq, Repr

/-- The `SELECT tts_speed, announcement_interval, priority_mode FROM
UserPreferences WHERE user_id = ?` lookup. -/
def lookupPrefs : List (String × Prefs) → String → Option Prefs
  | [], _ => none
  | (k, p) :: rest, u => if k = u then some p else lookupPrefs rest u

/-- The `MERGE INTO UserPreferences` statement of
`save_user_preferences`: update the matched row in place, otherwise
insert a new row. -/
def upsert : List (String × Prefs) → String → Prefs → List (String × Prefs)
  | [], u, p => [(u, p)]
  | (k, q) :: rest, u, p =>
      if k = u then (k, p) :: rest else (k, q) :: upsert rest u p

/-- The body of `AzureSQLService.get_user_preferences` before its
`except` clause is applied: the `enabled` guard returns the defaults,
a failing `pyodbc.connect` (`connOk = false`) raises, a found row is
returned, a missing row yields the defaults. -/
def get_user_preferences_raw (st : SQLState) (connOk : Bool) (user_id : String) :
    Except String Prefs :=
  if st.enabled = false then Except.ok DEFAULT_PREFS
  else if connOk = false then Except.error "connect failed"
  else
    match lookupPrefs st.db user_id with
    | some p => Except.ok p
    | none => Except.ok DEFAULT_PREFS

/-- `AzureSQLService.get_user_preferences`: the `except Exception`
clause catches any raised error and returns `DEFAULT_PREFS`, so the
method is total (it never propagates a failure to the caller). -/
def get_user_preferences (st : SQLState) (connOk : Bool) (user_id : String) : Prefs :=
  match get_user_preferences_raw st connOk user_id with
  | Except.ok p => p
  | Except.error _ => DEFAULT_PREFS

/-- `AzureSQLService.save_user_preferences`: returns immediately when
the store is disabled; a failing connection (`connOk = false`) is
caught by its `except` clause and leaves the table unchanged;
otherwise the `MERGE` upserts all three fields for `user_id`. The
method never raises and returns no value, so its embedding returns the
new store state. -/
def save_user_preferences (st : SQLState) (connOk : Bool) (user_id : String)
    (speed : Rat) (interval : Int) (mode : String) : SQLState :=
  let newRow : Prefs :=
    { tts_speed := speed, announcement_interval := interval, priority_mode := mode }
  if st.enabled = false then st
  else if connOk = false then st
  else { st with db := upsert st.db user_id newRow }

/-! ## Preferences routes: `api_routes.py` -/

/-- Parsed JSON body of `POST /api/preferences`; every field is
optional (`data.get(...)` with a default). -/
structure PrefBody where
  user_id : Option String
  tts_speed : Option Rat
  announcement_interval : Option Int
  priority_mode : Option String

/-- The JSON response of `handle_save_preferences`:
`{"success": true, "preferences": {user_id, tts_speed,
announcement_interval, priority_mode}}` with HTTP status. -/
structure SavePrefsResponse where
  status : Nat
  success : Bool
  user_id : String
  preferences : Prefs
deriving DecidableEq, Repr

/-- `handle_save_preferences` (for a JSON body that parsed): fills
each missing field with its literal default (`'default_user'`, `1.0`,
`10`, `'dynamic'`), calls `save_user_preferences` with the filled
record, and unconditionally returns a 200 `{"success": true,
"preferences": ...}` echoing the filled record.  Returns the resulting
store state together with the response. -/
def handle_save_preferences (st : SQLState) (connOk : Bool) (body : PrefBody) :
    SQLState × SavePrefsResponse :=
  let user_id := body.user_id.getD "default_user"
  let tts_speed := body.tts_speed.getD 1
  let announcement_interval := body.announcement_interval.getD 10
  let priority_mode := body.priority_mode.getD "dynamic"
  let st2 := save_user_preferences st connOk user_id tts_speed announcement_interval priority_mode
  (st2,
   { status := 200, success := true, user_id := user_id,
     preferences :=
       { tts_speed := tts_speed, announcement_interval := announcement_interval,
         priority_mode := priority_mode } })

/-- The JSON response of `handle_get_preferences`: the stored (or
default) record merged with the `user_id`. -/
structure GetPrefsResponse where
  status : Nat
  preferences : Prefs
  user_id : String
deriving DecidableEq, Repr

/-- `handle_get_preferences`: reads `user_id` from the query
parameters (default `'default_user'`), loads the record via
`get_user_preferences`, merges in the `user_id`, and returns 200. -/
def handle_get_preferences (st : SQLState) (connOk : Bool)
    (user_id_param : Option String) : GetPrefsResponse :=
  let user_id := user_id_param.getD "default_user"
  { status := 200, preferences := get_user_preferences st connOk user_id, user_id := user_id }

/-! ## Model state and VQA: `main.py` -/

/-- The two module-level globals set by `init_models`: whether
`processor` and `blip_model` are non-`None`. -/
structure ModelState where
  processorLoaded : Bool
  blipLoaded : Bool
deriving DecidableEq, Repr

/-- The globals before the startup hook has run: both are `None`. -/
def initialModelState : ModelState :=
  { processorLoaded := false, blipLoaded := false }

/-- `init_models`: on success both globals are set; its `except`
clause resets both to `None` when loading raised. -/
def init_models (loadOk : Bool) : ModelState :=
  if loadOk then { processorLoaded := true, blipLoaded := true }
  else { processorLoaded := false, blipLoaded := false }

/-- `blip_answer`: returns the sentinel string when either global is
`None`; otherwise runs inference (`infer`, an exception being
`Except.error`) and, on an exception, catches it and returns the
`"Error processing question: ..."` string.  The function never
raises. -/
def blip_answer (ms : ModelState) (infer : Except String String) : String :=
  if ms.processorLoaded = false || ms.blipLoaded = false then "VQA model not available"
  else
    match infer with
    | Except.ok answer => answer
    | Except.error e => "Error processing question: " ++ e

/-- Python truthiness of an optional string field read with
`data.get(...)`: `None` and the empty string are falsy. -/
def truthy : Option String → Bool
  | none => false
  | some s => !s.isEmpty

/-- A response of the `/api/vqa` handler: HTTP status, the `answer`
field on success, the `error` field otherwise. -/
structure VqaResponse where
  status : Nat
  answer : Option String
  error : Option String
deriving DecidableEq, Repr

/-- `handle_vqa` (for a JSON body that parsed): the `if not
image_base64 or not question` guard yields 400, the `blip_model is
None` guard yields 503, an exception from `decode_base64_image`
(`decodeResult = Except.error`) is caught by the handler's outer
`try` and yields 500, and otherwise the `blip_answer` result is
returned with status 200.  `infer` is the inference outcome passed on
to `blip_answer`. -/
def handle_vqa (ms : ModelState) (imageBase64 question : Option String)
    (decodeResult : Except String Unit) (infer : Except String String) : VqaResponse :=
  if !truthy imageBase64 || !truthy question then
    { status := 400, answer := none, error := some "Missing imageBase64 or question" }
  else if ms.blipLoaded = false then
    { status := 503, answer := none,
      error := some "VQA model not loaded yet. Wait for initialization." }
  else
    match decodeResult with
    | Except.error e =>
        { status := 500, answer := none, error := some ("VQA processing failed: " ++ e) }
    | Except.ok _ =>
        { status := 200, answer := some (blip_answer ms infer), error := none }

/-! ## Speech token relay: `main.py`, `handle_speech_token` -/

/-- A response of `/api/speech-token`, extended with whether the
handler reached the outbound `session.post` call. -/
structure SpeechTokenResponse where
  status : Nat
  token : Option String
  region : Option String
  error : Option String
  madeNetworkCall : Bool
deriving DecidableEq, Repr

/-- `handle_speech_token`.  `AZURE_AVAILABLE` is computed as in the
module prologue: true exactly when the Azure Speech SDK import
succeeded and `AZURE_SPEECH_KEY` is set.  When it is false the
handler returns 500 before the `try` block that performs the outbound
call.  `upstream` models that call: `Except.error` for a raised
exception, `Except.ok (status, body)` for a completed HTTP
round trip. -/
def handle_speech_token (sdkImported : Bool) (key : Option String) (region : String)
    (upstream : Except String (Nat × String)) : SpeechTokenResponse :=
  let azureAvailable := sdkImported && key.isSome
  if azureAvailable = false then
    { status := 500, token := none, region := none,
      error := some "Azure Speech SDK not configured. Check AZURE_SPEECH_KEY in .env",
      madeNetworkCall := false }
  else
    match upstream with
    | Except.error e =>
        { status := 500, token := none, region := none,
          error := some ("Failed to generate token: " ++ e), madeNetworkCall := true }
    | Except.ok (upstreamStatus, body) =>
        if upstreamStatus = 200 then
          { status := 200, token := some body, region := some region, error := none,
            madeNetworkCall := true }
        else
          { status := 500, token := none, region := none,
            error := some ("Azure token fetch failed: " ++ toString upstreamStatus ++ " - " ++ body),
            madeNetworkCall := true }

/-! ## CORS middleware: `main.py`, `cors_middleware` -/

/-- What the middleware sees of a response: its status and whether the
three CORS headers were set on it. -/
structure MWResponse where
  status : Nat
  corsHeaders : Bool
deriving DecidableEq, Repr

/-- `cors_middleware`: `OPTIONS` short-circuits to an empty 200
response; otherwise the handler is awaited, and an exception from it
is logged and re-raised (`raise`), so the error propagates out of the
middleware (modelled as `Except.error`).  CORS headers are added only
on the non-raising paths. -/
def cors_middleware (method : String) (handlerResult : Except String MWResponse) :
    Except String MWResponse :=
  if method = "OPTIONS" then Except.ok { status := 200, corsHeaders := true }
  else
    match handlerResult with
    | Except.ok r => Except.ok { r with corsHeaders := true }
    | Except.error e => Except.error e

/-! ## Base64 image decoding: `main.py`, `decode_base64_image` -/

/-- The characters after the first `','` of a string (strings are
modelled as `List Char`); the whole string if it has no comma. -/
def afterFirstComma : List Char → List Char
  | [] => []
  | c :: rest => if c = ',' then rest else afterFirstComma rest

/-- The prefix-stripping step of `decode_base64_image`:
`if ',' in base64_string: base64_string = base64_string.split(',')[1]`.
Python's `split(',')[1]` is the chunk strictly between the first and
the second comma, i.e. `afterFirstComma` truncated at the next
comma. -/
def stripDataUrl (s : List Char) : List Char :=
  if ',' ∈ s then (afterFirstComma s).takeWhile (fun c => c != ',') else s

/-- `decode_base64_image` up to the byte level: strip the data-URL
prefix, then feed the remaining string to `base64.b64decode`
(abstracted as the parameter `b64decode`, since the claims only
compare its outputs on equal inputs). -/
def decode_base64_image (b64decode : List Char → List Nat) (s : List Char) : List Nat :=
  b64decode (stripDataUrl s)

/-- The standard base64 alphabet (with padding). -/
def isBase64Char (c : Char) : Bool :=
  c.isAlphanum || c = '+' || c = '/' || c = '='

/-! ## Helper lemmas -/

/-- Looking up the upserted key returns the upserted row (the `MERGE`
writes all three fields). -/
theorem lookupPrefs_upsert_self (db : List (String × Prefs)) (u : String) (p : Prefs) :
    lookupPrefs (upsert db u p) u = some p := by
  induction db with
  | nil => simp [upsert, lookupPrefs]
  | cons kv rest ih =>
    obtain ⟨k, q⟩ := kv
    by_cases hk : k = u
    · simp [upsert, lookupPrefs, hk]
    · simp [upsert, lookupPrefs, hk, ih]

/-! ## Claim C4 -/

/-- Claim C4: `get_user_preferences` is total by construction (its
`except` clause is part of the definition), and whenever no record
exists for the user, the store is disabled, or the connection attempt
fails, it returns exactly `DEFAULT_PREFS` instead of propagating the
failure. -/
theorem c4_get_defaults (st : SQLState) (connOk : Bool) (u : String)
    (h : lookupPrefs st.db u = none ∨ st.enabled = false ∨ connOk = false) :
    get_user_preferences st connOk u = DEFAULT_PREFS := by
  unfold get_user_preferences get_user_preferences_raw
  rcases h with h | h | h
  · cases hen : st.enabled <;> cases hc : connOk <;> simp [hen, hc, h]
  · simp [h]
  · cases hen : st.enabled <;> simp [hen, h]

/-- Witness for C4 at a concrete never-saved user on an enabled,
reachable store. -/
theorem c4_get_defaults_witness :
    lookupPrefs (SQLState.mk true []).db "u1" = none ∧
    get_user_preferences (SQLState.mk true []) true "u1" = DEFAULT_PREFS :=
  ⟨rfl, c4_get_defaults (SQLState.mk true []) true "u1" (Or.inl rfl)⟩

/-! ## Claim C3 -/

/-- Counterexample to claim C3 as stated: on a store constructed in
offline mode (`enabled = false`, as happens when the initial
connection fails), `save_user_preferences` is a silent no-op and the
subsequent `get_user_preferences` returns the defaults, not the saved
values. -/
theorem c3_counterexample :
    get_user_preferences
        (save_user_preferences (SQLState.mk false []) true "u1" 2 5 "high") true "u1" ≠
      { tts_speed := 2, announcement_interval := 5, priority_mode := "high" } := by
  decide

/-- Claim C3 (amended): on a store whose construction succeeded
(`enabled = true`) and whose per-operation connections succeed,
`get_user_preferences` after `save_user_preferences user_id s i m`
with no intervening save returns exactly
`{tts_speed := s, announcement_interval := i, priority_mode := m}`. -/
theorem c3_roundtrip_enabled (st : SQLState) (u : String) (s : Rat) (i : Int) (m : String)
    (hen : st.enabled = true) :
    get_user_preferences (save_user_preferences st true u s i m) true u =
      { tts_speed := s, announcement_interval := i, priority_mode := m } := by
  unfold save_user_preferences get_user_preferences get_user_preferences_raw
  simp [hen, lookupPrefs_upsert_self]

/-- Witness for the amended C3 at concrete values on an enabled
store. -/
theorem c3_roundtrip_enabled_witness :
    (SQLState.mk true []).enabled = true ∧
    get_user_preferences (save_user_preferences (SQLState.mk true []) true "u1" 2 5 "high")
        true "u1" =
      { tts_speed := 2, announcement_interval := 5, priority_mode := "high" } :=
  ⟨rfl, c3_roundtrip_enabled (SQLState.mk true []) "u1" 2 5 "high" rfl⟩

/-! ## Claim C5 -/

/-- Claim C5: `POST /api/preferences` fills every missing body field
with its documented default (`"default_user"`, `1.0`, `10`,
`"dynamic"`) independent of any stored record, echoes the full filled
record in the 200 response, and (when the store is enabled and
reachable) the filled record is exactly what ends up stored for that
user. -/
theorem c5_save_fills_defaults (st : SQLState) (connOk : Bool) (body : PrefBody) :
    (handle_save_preferences st connOk body).2 =
      { status := 200, success := true, user_id := body.user_id.getD "default_user",
        preferences :=
          { tts_speed := body.tts_speed.getD 1,
            announcement_interval := body.announcement_interval.getD 10,
            priority_mode := body.priority_mode.getD "dynamic" } } ∧
    (st.enabled = true → connOk = true →
      lookupPrefs (handle_save_preferences st connOk body).1.db
          (body.user_id.getD "default_user") =
        some { tts_speed := body.tts_speed.getD 1,
               announcement_interval := body.announcement_interval.getD 10,
               priority_mode := body.priority_mode.getD "dynamic" }) := by
  refine ⟨rfl, ?_⟩
  intro hen hc
  subst hc
  unfold handle_save_preferences save_user_preferences
  simp [hen, lookupPrefs_upsert_self]

/-- Witness for C5 at the claim's own example: body
`{"user_id": "u1", "tts_speed": 1.5}` with no prior record stores
`{u1, 1.5, 10, "dynamic"}`. -/
theorem c5_save_fills_defaults_witness :
    (SQLState.mk true []).enabled = true ∧
    lookupPrefs
        (handle_save_preferences (SQLState.mk true [])
          true (PrefBody.mk (some "u1") (some (3 / 2)) none none)).1.db "u1" =
      some { tts_speed := 3 / 2, announcement_interval := 10, priority_mode := "dynamic" } :=
  ⟨rfl,
   (c5_save_fills_defaults (SQLState.mk true []) true
      (PrefBody.mk (some "u1") (some (3 / 2)) none none)).2 rfl rfl⟩

/-! ## Claim C10 -/

/-- Claim C10: `POST /api/preferences` answers 200
`{"success": true, ...}` even when the store is disabled or the write
connection fails — `save_user_preferences` returns without raising in
both cases and leaves the store unchanged, so a success response does
not imply the record was persisted. -/
theorem c10_save_success_despite_store_failure (st : SQLState) (connOk : Bool) (body : PrefBody)
    (h : st.enabled = false ∨ connOk = false) :
    (handle_save_preferences st connOk body).2.status = 200 ∧
    (handle_save_preferences st connOk body).2.success = true ∧
    (handle_save_preferences st connOk body).1 = st := by
  refine ⟨rfl, rfl, ?_⟩
  unfold handle_save_preferences save_user_preferences
  rcases h with h | h
  · simp [h]
  · cases hen : st.enabled <;> simp [hen, h]

/-- Witness for C10 on a disabled store with a non-trivial body. -/
theorem c10_save_success_despite_store_failure_witness :
    ((SQLState.mk false []).enabled = false ∨ (true : Bool) = false) ∧
    (handle_save_preferences (SQLState.mk false [])
        true (PrefBody.mk (some "u1") (some 2) (some 5) (some "high"))).2.status = 200 ∧
    (handle_save_preferences (SQLState.mk false [])
        true (PrefBody.mk (some "u1") (some 2) (some 5) (some "high"))).2.success = true ∧
    (handle_save_preferences (SQLState.mk false [])
        true (PrefBody.mk (some "u1") (some 2) (some 5) (some "high"))).1 =
      SQLState.mk false [] :=
  ⟨Or.inl rfl,
   c10_save_success_despite_store_failure (SQLState.mk false []) true
     (PrefBody.mk (some "u1") (some 2) (some 5) (some "high")) (Or.inl rfl)⟩

/-! ## Claim C1 -/

/-- Counterexample to claim C1 as stated: with both fields supplied
and the model loaded, an exception raised during inference is caught
inside `blip_answer` and turned into the string
`"Error processing question: ..."`, which `handle_vqa` returns as a
status-200 success with that string in the `answer` field — not a
500. -/
theorem c1_counterexample :
    handle_vqa (ModelState.mk true true) (some "iVBORw0KGgo") (some "what is this")
        (Except.ok ()) (Except.error "boom") =
      { status := 200, answer := some "Error processing question: boom", error := none } := by
  rfl

/-- Claim C1 (amended): with both fields supplied (non-empty) and the
model loaded, a failure while decoding the image yields a 500 with an
error message, for every inference outcome; but a failure raised
during inference is caught inside `blip_answer` and yields a 200
whose `answer` field carries the error text. -/
theorem c1_vqa_failure_statuses (ms : ModelState) (img q : Option String) (e : String)
    (him : truthy img = true) (hq : truthy q = true) (hload : ms.blipLoaded = true) :
    (∀ infer, handle_vqa ms img q (Except.error e) infer =
      { status := 500, answer := none, error := some ("VQA processing failed: " ++ e) }) ∧
    (ms.processorLoaded = true →
      handle_vqa ms img q (Except.ok ()) (Except.error e) =
        { status := 200, answer := some ("Error processing question: " ++ e), error := none }) := by
  constructor
  · intro infer
    unfold handle_vqa
    simp [him, hq, hload]
  · intro hp
    unfold handle_vqa blip_answer
    simp [him, hq, hload, hp]

/-- Witness for the amended C1 at a concrete fully-loaded model and
concrete failing decode / failing inference. -/
theorem c1_vqa_failure_statuses_witness :
    handle_vqa (ModelState.mk true true) (some "abc") (some "q")
        (Except.error "bad image") (Except.ok "a") =
      { status := 500, answer := none,
        error := some ("VQA processing failed: " ++ "bad image") } ∧
    handle_vqa (ModelState.mk true true) (some "abc") (some "q")
        (Except.ok ()) (Except.error "bad tensor") =
      { status := 200, answer := some ("Error processing question: " ++ "bad tensor"),
        error := none } :=
  ⟨(c1_vqa_failure_statuses (ModelState.mk true true) (some "abc") (some "q") "bad image"
      (by decide) (by decide) rfl).1 (Except.ok "a"),
   (c1_vqa_failure_statuses (ModelState.mk true true) (some "abc") (some "q") "bad tensor"
      (by decide) (by decide) rfl).2 rfl⟩

/-! ## Claim C7 -/

/-- Counterexample to claim C7 as stated: a body that supplies both
fields, with `imageBase64` the empty string, hits the falsy-field
guard first and gets 400 even though the model is not loaded — not
the claimed 503. -/
theorem c7_counterexample :
    (handle_vqa (ModelState.mk false false) (some "") (some "q")
        (Except.ok ()) (Except.ok "a")).status = 400 ∧
    (handle_vqa (ModelState.mk false false) (some "") (some "q")
        (Except.ok ()) (Except.ok "a")).status ≠ 503 := by
  decide

/-- Claim C7 (amended): with both fields supplied and non-empty
(truthy), a request while `blip_model` is `None` — the initial state
before `init_models` completes, and equally the state `init_models`
leaves after a failed load — gets exactly the 503 "not loaded"
response, for every decode and inference outcome (so neither decode
nor inference is invoked). -/
theorem c7_vqa_not_ready_503 (ms : ModelState) (img q : Option String)
    (decodeResult : Except String Unit) (infer : Except String String)
    (him : truthy img = true) (hq : truthy q = true) (hload : ms.blipLoaded = false) :
    handle_vqa ms img q decodeResult infer =
      { status := 503, answer := none,
        error := some "VQA model not loaded yet. Wait for initialization." } ∧
    handle_vqa initialModelState img q decodeResult infer =
      { status := 503, answer := none,
        error := some "VQA model not loaded yet. Wait for initialization." } ∧
    handle_vqa (init_models false) img q decodeResult infer =
      { status := 503, answer := none,
        error := some "VQA model not loaded yet. Wait for initialization." } := by
  refine ⟨?_, ?_, ?_⟩ <;>
    · unfold handle_vqa
      simp [him, hq, hload, initialModelState, init_models]

/-- Witness for the amended C7 at the pre-startup model state with
concrete non-empty fields. -/
theorem c7_vqa_not_ready_503_witness :
    truthy (some "abc") = true ∧
    handle_vqa initialModelState (some "abc") (some "q") (Except.ok ()) (Except.ok "a") =
      { status := 503, answer := none,
        error := some "VQA model not loaded yet. Wait for initialization." } :=
  ⟨by decide,
   (c7_vqa_not_ready_503 initialModelState (some "abc") (some "q") (Except.ok ())
      (Except.ok "a") (by decide) (by decide) rfl).2.1⟩

/-! ## Claim C2 -/

/-- Counterexample to claim C2 as stated: when a handler raises, the
`cors_middleware` boundary logs and re-raises the exception — it does
not convert it into any status-500 `{"error": message}` response of
its own (what the client then receives is the web framework's default
error page, produced outside this repository). -/
theorem c2_counterexample :
    cors_middleware "GET" (Except.error "boom") = Except.error "boom" := by
  rfl

/-- Claim C2 (amended): for every non-`OPTIONS` request, the
repository's middleware boundary propagates (re-raises) a handler
exception unchanged instead of converting it to a
`{"error": message}` body, and on a handler success it returns the
response with CORS headers added; the JSON 500 envelope is produced
only by the `try/except` blocks inside individual handlers. -/
theorem c2_middleware_reraises (method : String) (e : String) (r : MWResponse)
    (h : method ≠ "OPTIONS") :
    cors_middleware method (Except.error e) = Except.error e ∧
    cors_middleware method (Except.ok r) = Except.ok { r with corsHeaders := true } := by
  unfold cors_middleware
  simp [h]

/-- Witness for the amended C2 at a concrete `GET` request. -/
theorem c2_middleware_reraises_witness :
    cors_middleware "GET" (Except.error "boom") = Except.error "boom" ∧
    cors_middleware "GET" (Except.ok (MWResponse.mk 200 false)) =
      Except.ok (MWResponse.mk 200 true) :=
  c2_middleware_reraises "GET" "boom" (MWResponse.mk 200 false) (by decide)

/-! ## Claim C6 -/

/-- Claim C6: whenever `AZURE_SPEECH_KEY` is absent,
`GET /api/speech-token` returns status 500 with the configuration
error message and never reaches the outbound token request —
regardless of whether the SDK import succeeded and of what the
upstream would have answered. -/
theorem c6_speech_token_unconfigured (sdkImported : Bool) (region : String)
    (upstream : Except String (Nat × String)) :
    handle_speech_token sdkImported none region upstream =
      { status := 500, token := none, region := none,
        error := some "Azure Speech SDK not configured. Check AZURE_SPEECH_KEY in .env",
        madeNetworkCall := false } := by
  unfold handle_speech_token
  simp

/-! ## Lemmas about the data-URL stripping -/

/-- Skipping to after the first comma of `a ++ ',' :: rest` lands on
`rest` when `a` itself is comma-free. -/
theorem afterFirstComma_append_of_not_mem (a rest : List Char) (h : ',' ∉ a) :
    afterFirstComma (a ++ ',' :: rest) = rest := by
  induction a with
  | nil => simp [afterFirstComma]
  | cons c cs ih =>
    have hc : c ≠ ',' := by
      intro hcc
      exact h (by simp [hcc])
    have hcs : ',' ∉ cs := fun hm => h (List.mem_cons_of_mem _ hm)
    simpa [afterFirstComma, hc] using ih hcs

/-- Truncating `b ++ ',' :: t` at the first comma yields `b` when `b`
is comma-free. -/
theorem takeWhile_append_comma (b t : List Char) (h : ',' ∉ b) :
    (b ++ ',' :: t).takeWhile (fun c => c != ',') = b := by
  induction b with
  | nil => simp
  | cons c cs ih =>
    have hc : c ≠ ',' := by
      intro hcc
      exact h (by simp [hcc])
    have hcs : ',' ∉ cs := fun hm => h (List.mem_cons_of_mem _ hm)
    simp [List.takeWhile_cons, hc, ih hcs]

/-- A comma-free list is unchanged by truncation at the first comma. -/
theorem takeWhile_of_not_mem (b : List Char) (h : ',' ∉ b) :
    b.takeWhile (fun c => c != ',') = b := by
  induction b with
  | nil => simp
  | cons c cs ih =>
    have hc : c ≠ ',' := by
      intro hcc
      exact h (by simp [hcc])
    have hcs : ',' ∉ cs := fun hm => h (List.mem_cons_of_mem _ hm)
    simp [List.takeWhile_cons, hc, ih hcs]

/-- A comma-free string is passed to `b64decode` unchanged. -/
theorem stripDataUrl_of_not_mem (s : List Char) (h : ',' ∉ s) : stripDataUrl s = s := by
  simp [stripDataUrl, h]

/-- Stripping a data-URL prefix: for a comma-free prefix and
comma-free payload, the stripped string is exactly the payload. -/
theorem stripDataUrl_prefixed (p payload : List Char) (hp : ',' ∉ p) (hpl : ',' ∉ payload) :
    stripDataUrl (p ++ ',' :: payload) = payload := by
  have hmem : ',' ∈ p ++ ',' :: payload := by simp
  simp [stripDataUrl, hmem, afterFirstComma_append_of_not_mem p payload hp,
    takeWhile_of_not_mem payload hpl]

/-! ## Claim C8 -/

/-- Claim C8: for every base64 payload (all characters in the base64
alphabet, hence comma-free) and every comma-free data-URL prefix,
decoding the prefixed string `prefix ++ "," ++ payload` and decoding
the raw payload feed the identical string to `base64.b64decode` and
so yield the same image bytes, for any decoder. -/
theorem c8_dataurl_raw_same_decode (b64decode : List Char → List Nat) (p payload : List Char)
    (hp : ',' ∉ p) (hpl : payload.all isBase64Char = true) :
    decode_base64_image b64decode (p ++ ',' :: payload) =
      decode_base64_image b64decode payload := by
  have hc : ',' ∉ payload := by
    intro hm
    have hch : isBase64Char ',' = true := List.all_eq_true.mp hpl _ hm
    exact absurd hch (by decide)
  unfold decode_base64_image
  rw [stripDataUrl_prefixed p payload hp hc, stripDataUrl_of_not_mem payload hc]

/-- Witness for C8: a concrete PNG-style data-URL prefix and the
payload `"AAAA"`, under a decoder that exposes its input's length. -/
theorem c8_dataurl_raw_same_decode_witness :
    ',' ∉ String.toList "data:image/png;base64" ∧
    decode_base64_image (fun s => [s.length])
        (String.toList "data:image/png;base64" ++ ',' :: String.toList "AAAA") =
      decode_base64_image (fun s => [s.length]) (String.toList "AAAA") :=
  ⟨by decide,
   c8_dataurl_raw_same_decode (fun s => [s.length]) (String.toList "data:image/png;base64")
     (String.toList "AAAA") (by decide) (by decide)⟩

/-! ## Claim C9 -/

/-- Claim C9: when the input has two or more commas (here
`a ++ "," ++ b ++ "," ++ t` with `a`, `b` comma-free, so those are
the first and second commas), only the segment `b` strictly between
the first and second comma is handed to the decoder, and everything
after the second comma is discarded: inputs differing only in the
tail decode to the same bytes. -/
theorem c9_second_comma_discard (b64decode : List Char → List Nat)
    (a b t1 t2 : List Char) (ha : ',' ∉ a) (hb : ',' ∉ b) :
    stripDataUrl (a ++ ',' :: (b ++ ',' :: t1)) = b ∧
    decode_base64_image b64decode (a ++ ',' :: (b ++ ',' :: t1)) =
      decode_base64_image b64decode (a ++ ',' :: (b ++ ',' :: t2)) := by
  have hstrip : ∀ t : List Char, stripDataUrl (a ++ ',' :: (b ++ ',' :: t)) = b := by
    intro t
    have hmem : ',' ∈ a ++ ',' :: (b ++ ',' :: t) := by simp
    simp [stripDataUrl, hmem, afterFirstComma_append_of_not_mem a _ ha,
      takeWhile_append_comma b t hb]
  refine ⟨hstrip t1, ?_⟩
  unfold decode_base64_image
  rw [hstrip t1, hstrip t2]

/-- Witness for C9: two inputs sharing prefix and middle segment but
with different tails after the second comma decode identically. -/
theorem c9_second_comma_discard_witness :
    stripDataUrl (String.toList "data:image/png;base64" ++ ','
        :: (String.toList "QUJD" ++ ',' :: String.toList "junk1")) =
      String.toList "QUJD" ∧
    decode_base64_image (fun s => [s.length])
        (String.toList "data:image/png;base64" ++ ','
          :: (String.toList "QUJD" ++ ',' :: String.toList "junk1")) =
      decode_base64_image (fun s => [s.length])
        (String.toList "data:image/png;base64" ++ ','
          :: (String.toList "QUJD" ++ ',' :: String.toList "junk2")) :=
  c9_second_comma_discard (fun s => [s.length]) (String.toList "data:image/png;base64")
    (String.toList "QUJD") (String.toList "junk1") (String.toList "junk2")
    (by decide) (by decide)

end VQABackend
